import Mathlib

/-!
Verification development for the `@lamersv/error` package: a shallow
embedding of its error-class hierarchy (CustomError, WarnError,
ExceptionError and their named subtypes), the message normalizer
`normalizeErrorMessage`, the wrapping factory `CustomError.from` and the
response shaper `toHttp`, together with theorems settling the spec claims.
-/

namespace LamersError

/-- A JavaScript runtime value, restricted to the shapes this package
inspects or stores: `null`, `undefined`, booleans, (integer) numbers,
strings, native `Error` objects (carrying their `message`), the plain
object `\x7b error: v \x7d` that `CustomError.from` builds, and `CustomError`
instances themselves (`vcustomTagged`, carrying the fields the class
declares; `vdata`/`cause` use `vundef` for an absent field). -/
inductive Val where
  | vnull
  | vundef
  | vbool (b : Bool)
  | vint (n : Int)
  | vstr (s : String)
  | vnative (message : String)
  | vobjError (inner : Val)
  | vcustomTagged (name message code ctype : String) (status : Int)
      (userMessage : Option String) (vdata cause : Val)
deriving DecidableEq, Repr

/-- `v == null || v == undefined` — the values the `??` operator skips. -/
def Val.isNullish : Val → Bool
  | .vnull => true
  | .vundef => true
  | _ => false

/-- `v instanceof CustomError`. -/
def Val.isCustom : Val → Bool
  | .vcustomTagged _ _ _ _ _ _ _ _ => true
  | _ => false

/-- `v instanceof Error` and not a `CustomError`: a native failure object. -/
def Val.isNativeError : Val → Bool
  | .vnative _ => true
  | _ => false

/-! ### The message normalizer (src/utils/normalize.ts) -/

/-- The characters matched by JavaScript's `\s` regex class, which is also
the set removed by `String.prototype.trim`. -/
def jsWhitespace : List Char :=
  [' ', '\t', '\n', '\r', '\x0b', '\x0c', '\u00a0', '\u1680',
   '\u2000', '\u2001', '\u2002', '\u2003', '\u2004', '\u2005', '\u2006',
   '\u2007', '\u2008', '\u2009', '\u200a', '\u2028', '\u2029',
   '\u202f', '\u205f', '\u3000', '\ufeff']

/-- Whether `c` is JavaScript whitespace. -/
def jsIsWS (c : Char) : Bool := jsWhitespace.contains c

/-- `String.prototype.trim`: strip leading and trailing whitespace. -/
def trimJS (s : String) : String :=
  String.mk (((s.toList.dropWhile fun c => jsIsWS c).reverse.dropWhile
    fun c => jsIsWS c).reverse)

/-- Worker for `collapseWS`: the flag records whether the previous character
belonged to a whitespace run already replaced by a single space. -/
def collapseGo : Bool → List Char → List Char
  | _, [] => []
  | prevWS, c :: rest =>
    if jsIsWS c then
      if prevWS then collapseGo true rest
      else ' ' :: collapseGo true rest
    else c :: collapseGo false rest

/-- `str.replace(/\s+/g, " ")`: every maximal run of whitespace becomes one
space. -/
def collapseWS (s : String) : String := String.mk (collapseGo false s.toList)

/-- Modelled from the spec: Unicode canonical composition, the behaviour of
the host `String.prototype.normalize("NFC")`, which is not code of this
repository. Pairs of a Latin base letter and a combining diacritical mark
are merged into the precomposed character; the table lists the pairs for
the Latin letters this package's messages use. Entries are
(base, combining mark, precomposed). -/
def composeTable : List (Char × Char × Char) :=
  [('a', '\u0301', '\u00e1'),
   ('e', '\u0301', '\u00e9'),
   ('i', '\u0301', '\u00ed'),
   ('o', '\u0301', '\u00f3'),
   ('u', '\u0301', '\u00fa'),
   ('A', '\u0301', '\u00c1'),
   ('E', '\u0301', '\u00c9'),
   ('I', '\u0301', '\u00cd'),
   ('O', '\u0301', '\u00d3'),
   ('U', '\u0301', '\u00da'),
   ('a', '\u0300', '\u00e0'),
   ('A', '\u0300', '\u00c0'),
   ('a', '\u0302', '\u00e2'),
   ('e', '\u0302', '\u00ea'),
   ('o', '\u0302', '\u00f4'),
   ('A', '\u0302', '\u00c2'),
   ('E', '\u0302', '\u00ca'),
   ('O', '\u0302', '\u00d4'),
   ('a', '\u0303', '\u00e3'),
   ('o', '\u0303', '\u00f5'),
   ('n', '\u0303', '\u00f1'),
   ('A', '\u0303', '\u00c3'),
   ('O', '\u0303', '\u00d5'),
   ('N', '\u0303', '\u00d1'),
   ('c', '\u0327', '\u00e7'),
   ('C', '\u0327', '\u00c7')]

/-- Canonical composition of one adjacent pair, through `composeTable`. -/
def composePair (b m : Char) : Option Char :=
  (composeTable.find? fun t => t.1 = b && t.2.1 = m).map fun t => t.2.2

/-- Worker for `unicodeNFC`: left-to-right composition pass. `pending` is
the character under consideration; when it composes with the next
character the composition becomes the new pending character. -/
def nfcGo (pending : Char) : List Char → List Char
  | [] => [pending]
  | c :: rest =>
    match composePair pending c with
    | some comp => nfcGo comp rest
    | none => pending :: nfcGo c rest

/-- `str.normalize("NFC")` as modelled by `composeTable`. -/
def unicodeNFC (s : String) : String :=
  match s.toList with
  | [] => ""
  | c :: rest => String.mk (nfcGo c rest)

/-- JavaScript's `String(v)` conversion on the shapes of `Val`. A
`CustomError` converts through its own `toString`,
producing `name [code]: message`. -/
def jsToString : Val → String
  | .vnull => "null"
  | .vundef => "undefined"
  | .vbool b => if b then "true" else "false"
  | .vint n => toString n
  | .vstr s => s
  | .vnative m => if m = "" then "Error" else "Error: " ++ m
  | .vobjError _ => "[object Object]"
  | .vcustomTagged nm msg cd _ _ _ _ _ => nm ++ " [" ++ cd ++ "]: " ++ msg

/-- src/utils/normalize.ts `normalizeErrorMessage`: `null`/`undefined`
become the fixed placeholder, anything else is converted with `String`,
trimmed, whitespace-collapsed and NFC-normalized. -/
def normalizeErrorMessage : Val → String
  | .vnull => "Erro desconhecido"
  | .vundef => "Erro desconhecido"
  | v => unicodeNFC (collapseWS (trimJS (jsToString v)))

/-! ### The base error type (src/modules/custom.ts) -/

/-- The optional properties bag accepted by the constructors
(`CustomErrorProperties` in src/types). `data` and `cause` are stored
verbatim by the constructor, so an absent field is `Val.vundef`;
the other fields go through `??` and are `Option`s. -/
structure CustomErrorProperties where
  code : Option String := none
  type : Option String := none
  status : Option Int := none
  data : Val := Val.vundef
  userMessage : Option String := none
  cause : Val := Val.vundef
deriving DecidableEq, Repr

/-- The runtime state of a constructed `CustomError` (or subclass)
instance: the fields the class declares, plus `name`, which the
constructor sets to the dynamic class name (`this.constructor.name`).
`userMessage` is an `Option` to mirror the runtime possibility of an
undefined field, which `toHttp` guards against with `??`. -/
structure CustomError where
  name : String
  message : String
  code : String
  type : String
  status : Int
  userMessage : Option String
  data : Val
  cause : Val
deriving DecidableEq, Repr

/-- View a constructed instance as a JavaScript value. -/
def CustomError.toVal (e : CustomError) : Val :=
  .vcustomTagged e.name e.message e.code e.type e.status e.userMessage
    e.data e.cause

/-- The `CustomError` constructor body: normalizes the message, applies
the `??` defaults, stores `data`/`cause` verbatim. `name` is the dynamic
class name of the instance under construction. -/
def CustomError.construct (name : String) (message : String)
    (props : CustomErrorProperties) : CustomError :=
  let normalizedMessage := normalizeErrorMessage (Val.vstr message)
  { name := name
    message := normalizedMessage
    code := props.code.getD "ERROR"
    type := props.type.getD "error"
    status := props.status.getD 500
    userMessage := some (props.userMessage.getD normalizedMessage)
    data := props.data
    cause := props.cause }

/-- `CustomError.from(err, override?)`: returns `err` unchanged when it is
already a `CustomError`; wraps a native `Error` keeping its message (or
the placeholder when the message is the empty string, via `||`),
defaulting `code`/`type`/`status` and setting `cause` to the original;
wraps any other value with the placeholder message and
`data = \x7b error: err \x7d` unless overridden. -/
def CustomError.from (err : Val) (override : CustomErrorProperties) :
    CustomError :=
  match err with
  | .vcustomTagged nm msg cd tp st um dt cz =>
    { name := nm, message := msg, code := cd, type := tp, status := st
      userMessage := um, data := dt, cause := cz }
  | .vnative m =>
    CustomError.construct "CustomError"
      (if m = "" then "Erro desconhecido" else m)
      { code := some (override.code.getD "SYSTEM_ERROR")
        type := some (override.type.getD "error")
        status := some (override.status.getD 500)
        data := override.data
        userMessage := some (override.userMessage.getD m)
        cause := if override.cause.isNullish then .vnative m
                 else override.cause }
  | v =>
    CustomError.construct "CustomError" "Erro desconhecido"
      { code := some (override.code.getD "SYSTEM_ERROR")
        type := some (override.type.getD "error")
        status := some (override.status.getD 500)
        data := if override.data.isNullish then .vobjError v
                else override.data
        userMessage := some (override.userMessage.getD "Erro desconhecido")
        cause := override.cause }

/-! ### The two families (src/modules/warn.ts, src/modules/exception.ts)

Each family constructor checks the (defaulted) status against its own
range; on a mismatch it redirects to the other family's constructor (same
message and properties) or to the neutral `CustomError`. The mutual
recursion is embedded with an explicit fuel parameter; `none` means the
fuel ran out before a constructor completed, which the termination
theorem shows never happens from fuel 2 on. -/

/-- The `super(...)` call on `WarnError`'s success path: the spread of the
incoming properties with `type`, `status`, `code` and `userMessage`
pinned. -/
def WarnError.superRecord (name message : String)
    (props : CustomErrorProperties) (status : Int) : CustomError :=
  CustomError.construct name message
    { props with
      type := some "warn"
      status := some status
      code := some (props.code.getD "WARN")
      userMessage := some (props.userMessage.getD message) }

/-- The `super(...)` call on `ExceptionError`'s success path. -/
def ExceptionError.superRecord (name message : String)
    (props : CustomErrorProperties) (status : Int) : CustomError :=
  CustomError.construct name message
    { props with
      type := some "error"
      status := some status
      code := some (props.code.getD "ERROR")
      userMessage := some (props.userMessage.getD message) }

mutual

/-- `new WarnError(message, properties)` with dynamic class name `name`:
status defaults to 400; a 5xx status redirects to `ExceptionError`, any
other status outside 4xx falls back to `CustomError`. -/
def WarnError.constructFuel :
    Nat → String → String → CustomErrorProperties → Option CustomError
  | 0, _, _, _ => none
  | fuel + 1, name, message, props =>
    let status := props.status.getD 400
    if status < 400 ∨ status > 499 then
      if status > 499 ∧ status < 600 then
        ExceptionError.constructFuel fuel "ExceptionError" message props
      else
        some (CustomError.construct "CustomError" message props)
    else
      some (WarnError.superRecord name message props status)

/-- `new ExceptionError(message, properties)` with dynamic class name
`name`: status defaults to 500; a 4xx status redirects to `WarnError`,
any other status outside 5xx falls back to `CustomError`. -/
def ExceptionError.constructFuel :
    Nat → String → String → CustomErrorProperties → Option CustomError
  | 0, _, _, _ => none
  | fuel + 1, name, message, props =>
    let status := props.status.getD 500
    if status < 500 ∨ status > 599 then
      if 400 ≤ status ∧ status ≤ 499 then
        WarnError.constructFuel fuel "WarnError" message props
      else
        some (CustomError.construct "CustomError" message props)
    else
      some (ExceptionError.superRecord name message props status)

end

/-- `new WarnError(message, properties)`. -/
def WarnError.construct (message : String) (props : CustomErrorProperties) :
    Option CustomError :=
  WarnError.constructFuel 2 "WarnError" message props

/-- `new ExceptionError(message, properties)`. -/
def ExceptionError.construct (message : String)
    (props : CustomErrorProperties) : Option CustomError :=
  ExceptionError.constructFuel 2 "ExceptionError" message props

/-- The response shape produced by `toHttp` (the `body` part). -/
structure HttpErrorBody where
  code : String
  type : String
  message : String
  data : Val
deriving DecidableEq, Repr

/-- The response shape produced by `toHttp`. -/
structure HttpErrorResponse where
  status : Int
  body : HttpErrorBody
deriving DecidableEq, Repr

/-- `toHttp()`, defined identically on `WarnError` and `ExceptionError`:
`message` is `userMessage ?? message` and `data` is `data ?? null`. -/
def CustomError.toHttp (e : CustomError) : HttpErrorResponse :=
  { status := e.status
    body :=
      { code := e.code
        type := e.type
        message := e.userMessage.getD e.message
        data := if e.data.isNullish then Val.vnull else e.data } }

/-! ### The named subtypes

Every subtype constructor destructures `data`/`userMessage` from its
properties, applies a default message, and calls its family constructor
with a fixed `code` and `status` (its own class name becoming the dynamic
name). The fixed data of each subtype is collected in a table. -/

/-- The partial properties bag the subtypes accept
(`CustomErrorPartialProperties` in src/types): only `data` and
`userMessage`. -/
structure CustomErrorPartialProperties where
  data : Val := Val.vundef
  userMessage : Option String := none
deriving DecidableEq, Repr

/-- The fixed data of one named subtype: class name, `code`, `status` and
default message. -/
structure SubtypeSpec where
  name : String
  code : String
  status : Int
  defaultMessage : String
deriving DecidableEq, Repr

/-- The nine `WarnError` subtypes of src/modules/warn.ts. -/
def warnSubtypes : List SubtypeSpec :=
  [⟨"BadRequestWarn", "BAD_REQUEST_WARN", 400, "Requisição inválida"⟩,
   ⟨"UnauthorizedWarn", "UNAUTHORIZED_WARN", 401, "Não autorizado"⟩,
   ⟨"ForbiddenWarn", "FORBIDDEN_WARN", 403, "Acesso negado"⟩,
   ⟨"NotFoundWarn", "NOT_FOUND_WARN", 404, "Recurso não encontrado"⟩,
   ⟨"ConflictWarn", "CONFLICT_WARN", 409, "Conflito de estado"⟩,
   ⟨"ValidationWarn", "VALIDATION_WARN", 422, "Falha de validação"⟩,
   ⟨"TooManyRequestsWarn", "TOO_MANY_REQUESTS_WARN", 429,
     "Muitas requisições"⟩,
   ⟨"UnknownRouteWarn", "ROUTE_WARN", 404, "Rota não encontrada"⟩,
   ⟨"AuthWarn", "AUTH_WARN", 401, "Erro de autenticação/validação de token"⟩]

/-- The twelve `ExceptionError` subtypes of src/modules/exception.ts. -/
def exceptionSubtypes : List SubtypeSpec :=
  [⟨"InternalServerError", "SYSTEM_ERROR", 500, "Erro interno do servidor"⟩,
   ⟨"DatabaseError", "DATABASE_ERROR", 500, "Erro no banco de dados"⟩,
   ⟨"MailError", "MAIL_ERROR", 502, "Erro ao enviar e-mail"⟩,
   ⟨"EncryptError", "ENCRYPT_ERROR", 500, "Erro ao criptografar valor"⟩,
   ⟨"ConfigError", "CONFIG_ERROR", 500, "Erro ao carregar configurações"⟩,
   ⟨"IntegrationError", "INTEGRATION_ERROR", 502,
     "Erro na integração com serviços externos"⟩,
   ⟨"TimeoutError", "TIMEOUT_ERROR", 504, "Tempo limite excedido"⟩,
   ⟨"StorageError", "STORAGE_ERROR", 507, "Erro de armazenamento"⟩,
   ⟨"NetworkError", "NETWORK_ERROR", 503, "Erro de rede"⟩,
   ⟨"LogError", "LOG_ERROR", 500, "Erro de log"⟩,
   ⟨"MemoryError", "MEMORY_ERROR", 507, "Erro de memória"⟩,
   ⟨"AuthError", "AUTH_ERROR", 500, "Erro de autenticação/validação de token"⟩]

/-- `new <subtype>(message?, properties?)` for a `WarnError` subtype:
`super(message ?? default, \x7b code, status, userMessage, data \x7d)`. -/
def mkWarnSubtype (st : SubtypeSpec) (message : Option String)
    (props : CustomErrorPartialProperties) : Option CustomError :=
  WarnError.constructFuel 2 st.name (message.getD st.defaultMessage)
    { code := some st.code
      status := some st.status
      userMessage := props.userMessage
      data := props.data }

/-- `new <subtype>(message?, properties?)` for an `ExceptionError`
subtype. -/
def mkExceptionSubtype (st : SubtypeSpec) (message : Option String)
    (props : CustomErrorPartialProperties) : Option CustomError :=
  ExceptionError.constructFuel 2 st.name (message.getD st.defaultMessage)
    { code := some st.code
      status := some st.status
      userMessage := props.userMessage
      data := props.data }

/-- The table row of the `NotFoundWarn` subtype. -/
def notFoundWarnSpec : SubtypeSpec :=
  ⟨"NotFoundWarn", "NOT_FOUND_WARN", 404, "Recurso não encontrado"⟩

/-- The construction-time invariant the spec states for the taxonomy:
category (`type`) "warn" forces a 4xx status, "error" a 5xx status. -/
def statusInvariant (e : CustomError) : Prop :=
  (e.type = "warn" → 400 ≤ e.status ∧ e.status ≤ 499) ∧
  (e.type = "error" → 500 ≤ e.status ∧ e.status ≤ 599)

instance (e : CustomError) : Decidable (statusInvariant e) := by
  unfold statusInvariant; infer_instance

/-! ### Helper lemmas on the constructors -/

theorem warnSuperRecord_eq (name message : String)
    (props : CustomErrorProperties) (s : Int) :
    WarnError.superRecord name message props s =
      { name := name
        message := normalizeErrorMessage (Val.vstr message)
        code := props.code.getD "WARN"
        type := "warn"
        status := s
        userMessage := some (props.userMessage.getD message)
        data := props.data
        cause := props.cause } := rfl

theorem excSuperRecord_eq (name message : String)
    (props : CustomErrorProperties) (s : Int) :
    ExceptionError.superRecord name message props s =
      { name := name
        message := normalizeErrorMessage (Val.vstr message)
        code := props.code.getD "ERROR"
        type := "error"
        status := s
        userMessage := some (props.userMessage.getD message)
        data := props.data
        cause := props.cause } := rfl

/-- A `WarnError` constructor call with a (defaulted) status in the 4xx
range completes its own `super` call, at any non-zero fuel. -/
theorem warnFuel_success (fuel : Nat) (name message : String)
    (props : CustomErrorProperties)
    (h1 : 400 ≤ props.status.getD 400) (h2 : props.status.getD 400 ≤ 499) :
    WarnError.constructFuel (fuel + 1) name message props =
      some (WarnError.superRecord name message props
        (props.status.getD 400)) := by
  simp only [WarnError.constructFuel]
  rw [if_neg (by omega)]

/-- An `ExceptionError` constructor call with a (defaulted) status in the
5xx range completes its own `super` call, at any non-zero fuel. -/
theorem excFuel_success (fuel : Nat)
    (name message : String) (props : CustomErrorProperties)
    (h1 : 500 ≤ props.status.getD 500) (h2 : props.status.getD 500 ≤ 599) :
    ExceptionError.constructFuel (fuel + 1) name message props =
      some (ExceptionError.superRecord name message props
        (props.status.getD 500)) := by
  simp only [ExceptionError.constructFuel]
  rw [if_neg (by omega)]

/-- A `WarnError` constructor call with a 5xx status redirects once into
`ExceptionError`, which completes immediately. -/
theorem warnFuel_redirect (fuel : Nat)
    (name message : String) (props : CustomErrorProperties) (s : Int)
    (hs : props.status = some s) (h1 : 500 ≤ s) (h2 : s ≤ 599) :
    WarnError.constructFuel (fuel + 2) name message props =
      some (ExceptionError.superRecord "ExceptionError" message props s) := by
  have h500 : props.status.getD 500 = s := by rw [hs]; rfl
  simp only [WarnError.constructFuel, hs, Option.getD_some]
  rw [if_pos (by omega), if_pos (by omega),
    excFuel_success fuel _ _ _ (by omega) (by omega),
    h500]

/-- An `ExceptionError` constructor call with a 4xx status redirects once
into `WarnError`, which completes immediately. -/
theorem excFuel_redirect (fuel : Nat)
    (name message : String) (props : CustomErrorProperties) (s : Int)
    (hs : props.status = some s) (h1 : 400 ≤ s) (h2 : s ≤ 499) :
    ExceptionError.constructFuel (fuel + 2) name message props =
      some (WarnError.superRecord "WarnError" message props s) := by
  have h400 : props.status.getD 400 = s := by rw [hs]; rfl
  simp only [ExceptionError.constructFuel, hs, Option.getD_some]
  rw [if_pos (by omega), if_pos (by omega),
    warnFuel_success fuel _ _ _ (by omega) (by omega), h400]

/-- A `WarnError` constructor call with a status outside both ranges falls
back to the neutral `CustomError`. -/
theorem warnFuel_fallback (fuel : Nat)
    (name message : String) (props : CustomErrorProperties) (s : Int)
    (hs : props.status = some s) (h : s < 400 ∨ s > 599) :
    WarnError.constructFuel (fuel + 1) name message props =
      some (CustomError.construct "CustomError" message props) := by
  simp only [WarnError.constructFuel, hs, Option.getD_some]
  rw [if_pos (by omega), if_neg (by omega)]

/-- An `ExceptionError` constructor call with a status outside both ranges
falls back to the neutral `CustomError`. -/
theorem excFuel_fallback (fuel : Nat)
    (name message : String) (props : CustomErrorProperties) (s : Int)
    (hs : props.status = some s) (h : s < 400 ∨ s > 599) :
    ExceptionError.constructFuel (fuel + 1) name message props =
      some (CustomError.construct "CustomError" message props) := by
  simp only [ExceptionError.constructFuel, hs, Option.getD_some]
  rw [if_pos (by omega), if_neg (by omega)]

/-- Fuel 2 is enough for every status: more fuel never changes the result
of a `WarnError` construction, and the result exists. -/
theorem warnFuel_stable (fuel : Nat)
    (name message : String) (props : CustomErrorProperties) :
    WarnError.constructFuel (fuel + 2) name message props =
      WarnError.constructFuel 2 name message props ∧
    (WarnError.constructFuel 2 name message props).isSome := by
  rcases hs : props.status with _ | s
  · have hd : props.status.getD 400 = 400 := by rw [hs]; rfl
    rw [warnFuel_success (fuel + 1) _ _ _ (by omega)
        (by omega),
      warnFuel_success 1 _ _ _ (by omega) (by omega)]
    exact ⟨rfl, rfl⟩
  · by_cases h4 : 400 ≤ s ∧ s ≤ 499
    · have hd : props.status.getD 400 = s := by rw [hs]; rfl
      rw [warnFuel_success (fuel + 1) _ _ _ (by omega)
          (by omega),
        warnFuel_success 1 _ _ _ (by omega) (by omega)]
      exact ⟨rfl, rfl⟩
    · by_cases h5 : 500 ≤ s ∧ s ≤ 599
      · rw [warnFuel_redirect fuel _ _ _ s hs h5.1 h5.2,
          warnFuel_redirect 0 _ _ _ s hs h5.1 h5.2]
        exact ⟨rfl, rfl⟩
      · rw [warnFuel_fallback (fuel + 1) _ _ _ s hs
            (by omega),
          warnFuel_fallback 1 _ _ _ s hs (by omega)]
        exact ⟨rfl, rfl⟩

/-- Fuel 2 is enough for every status: more fuel never changes the result
of an `ExceptionError` construction, and the result exists. -/
theorem excFuel_stable (fuel : Nat)
    (name message : String) (props : CustomErrorProperties) :
    ExceptionError.constructFuel (fuel + 2) name message props =
      ExceptionError.constructFuel 2 name message props ∧
    (ExceptionError.constructFuel 2 name message props).isSome := by
  rcases hs : props.status with _ | s
  · have hd : props.status.getD 500 = 500 := by rw [hs]; rfl
    rw [excFuel_success (fuel + 1) _ _ _ (by omega)
        (by omega),
      excFuel_success 1 _ _ _ (by omega) (by omega)]
    exact ⟨rfl, rfl⟩
  · by_cases h5 : 500 ≤ s ∧ s ≤ 599
    · have hd : props.status.getD 500 = s := by rw [hs]; rfl
      rw [excFuel_success (fuel + 1) _ _ _ (by omega)
          (by omega),
        excFuel_success 1 _ _ _ (by omega) (by omega)]
      exact ⟨rfl, rfl⟩
    · by_cases h4 : 400 ≤ s ∧ s ≤ 499
      · rw [excFuel_redirect fuel _ _ _ s hs h4.1 h4.2,
          excFuel_redirect 0 _ _ _ s hs h4.1 h4.2]
        exact ⟨rfl, rfl⟩
      · rw [excFuel_fallback (fuel + 1) _ _ _ s hs
            (by omega),
          excFuel_fallback 1 _ _ _ s hs (by omega)]
        exact ⟨rfl, rfl⟩

/-- Every value a family constructor returns is the result of some
`CustomError.construct` call (its own `super`, the redirected family's
`super`, or the neutral fallback). -/
theorem constructFuel_shape (fuel : Nat) :
    (∀ (name message : String) (props : CustomErrorProperties)
        (e : CustomError),
        WarnError.constructFuel fuel name message props = some e →
        ∃ nm m p, e = CustomError.construct nm m p) ∧
    (∀ (name message : String) (props : CustomErrorProperties)
        (e : CustomError),
        ExceptionError.constructFuel fuel name message props = some e →
        ∃ nm m p, e = CustomError.construct nm m p) := by
  induction fuel with
  | zero =>
    constructor <;> intro name message props e h <;>
      simp [WarnError.constructFuel, ExceptionError.constructFuel] at h
  | succ n ih =>
    constructor <;> intro name message props e h
    · rw [WarnError.constructFuel] at h
      split_ifs at h with h1 h2
      · exact ih.2 _ _ _ _ h
      · exact ⟨_, _, _, (Option.some.injEq _ _ ▸ h).symm⟩
      · refine ⟨name, message,
          { props with
            type := some "warn"
            status := some (props.status.getD 400)
            code := some (props.code.getD "WARN")
            userMessage := some (props.userMessage.getD message) }, ?_⟩
        rw [← Option.some.inj h]; rfl
    · rw [ExceptionError.constructFuel] at h
      split_ifs at h with h1 h2
      · exact ih.1 _ _ _ _ h
      · exact ⟨_, _, _, (Option.some.injEq _ _ ▸ h).symm⟩
      · refine ⟨name, message,
          { props with
            type := some "error"
            status := some (props.status.getD 500)
            code := some (props.code.getD "ERROR")
            userMessage := some (props.userMessage.getD message) }, ?_⟩
        rw [← Option.some.inj h]; rfl

/-- Trichotomy of a `WarnError` construction: its own `super` (4xx, also
when the status is absent), one redirection into `ExceptionError` (5xx),
or the neutral fallback. -/
theorem warnConstruct_cases (message : String)
    (props : CustomErrorProperties) :
    (∃ s, props.status.getD 400 = s ∧ 400 ≤ s ∧ s ≤ 499 ∧
      WarnError.construct message props =
        some (WarnError.superRecord "WarnError" message props s)) ∨
    (∃ s, props.status = some s ∧ 500 ≤ s ∧ s ≤ 599 ∧
      WarnError.construct message props =
        some (ExceptionError.superRecord "ExceptionError" message props s)) ∨
    (∃ s, props.status = some s ∧ (s < 400 ∨ s > 599) ∧
      WarnError.construct message props =
        some (CustomError.construct "CustomError" message props)) := by
  rcases hs : props.status with _ | s
  · have hd : props.status.getD 400 = 400 := by rw [hs]; rfl
    left
    refine ⟨400, rfl, by omega, by omega, ?_⟩
    unfold WarnError.construct
    rw [warnFuel_success 1 _ _ _ (by omega) (by omega), hd]
  · by_cases h4 : 400 ≤ s ∧ s ≤ 499
    · have hd : props.status.getD 400 = s := by rw [hs]; rfl
      left
      refine ⟨s, rfl, h4.1, h4.2, ?_⟩
      unfold WarnError.construct
      rw [warnFuel_success 1 _ _ _ (by omega) (by omega), hd]
    · by_cases h5 : 500 ≤ s ∧ s ≤ 599
      · exact Or.inr (Or.inl ⟨s, rfl, h5.1, h5.2,
          warnFuel_redirect 0 _ _ _ s hs h5.1 h5.2⟩)
      · exact Or.inr (Or.inr ⟨s, rfl, by omega,
          warnFuel_fallback 1 _ _ _ s hs (by omega)⟩)

/-- Trichotomy of an `ExceptionError` construction. -/
theorem excConstruct_cases (message : String)
    (props : CustomErrorProperties) :
    (∃ s, props.status.getD 500 = s ∧ 500 ≤ s ∧ s ≤ 599 ∧
      ExceptionError.construct message props =
        some (ExceptionError.superRecord "ExceptionError" message props s)) ∨
    (∃ s, props.status = some s ∧ 400 ≤ s ∧ s ≤ 499 ∧
      ExceptionError.construct message props =
        some (WarnError.superRecord "WarnError" message props s)) ∨
    (∃ s, props.status = some s ∧ (s < 400 ∨ s > 599) ∧
      ExceptionError.construct message props =
        some (CustomError.construct "CustomError" message props)) := by
  rcases hs : props.status with _ | s
  · have hd : props.status.getD 500 = 500 := by rw [hs]; rfl
    left
    refine ⟨500, rfl, by omega, by omega, ?_⟩
    unfold ExceptionError.construct
    rw [excFuel_success 1 _ _ _ (by omega) (by omega),
      hd]
  · by_cases h5 : 500 ≤ s ∧ s ≤ 599
    · have hd : props.status.getD 500 = s := by rw [hs]; rfl
      left
      refine ⟨s, rfl, h5.1, h5.2, ?_⟩
      unfold ExceptionError.construct
      rw [excFuel_success 1 _ _ _ (by omega) (by omega),
        hd]
    · by_cases h4 : 400 ≤ s ∧ s ≤ 499
      · exact Or.inr (Or.inl ⟨s, rfl, h4.1, h4.2,
          excFuel_redirect 0 _ _ _ s hs h4.1 h4.2⟩)
      · exact Or.inr (Or.inr ⟨s, rfl, by omega,
          excFuel_fallback 1 _ _ _ s hs (by omega)⟩)

/-- A `WarnError` subtype with its fixed 4xx status always completes its
`super` call. -/
theorem mkWarnSubtype_eq (st : SubtypeSpec) (message : Option String)
    (props : CustomErrorPartialProperties)
    (h1 : 400 ≤ st.status) (h2 : st.status ≤ 499) :
    mkWarnSubtype st message props =
      some (WarnError.superRecord st.name (message.getD st.defaultMessage)
        { code := some st.code
          status := some st.status
          userMessage := props.userMessage
          data := props.data } st.status) := by
  unfold mkWarnSubtype
  rw [warnFuel_success 1 _ _ _ (by exact h1) (by exact h2)]
  rfl

/-- An `ExceptionError` subtype with its fixed 5xx status always completes
its `super` call. -/
theorem mkExceptionSubtype_eq (st : SubtypeSpec) (message : Option String)
    (props : CustomErrorPartialProperties)
    (h1 : 500 ≤ st.status) (h2 : st.status ≤ 599) :
    mkExceptionSubtype st message props =
      some (ExceptionError.superRecord st.name
        (message.getD st.defaultMessage)
        { code := some st.code
          status := some st.status
          userMessage := props.userMessage
          data := props.data } st.status) := by
  unfold mkExceptionSubtype
  rw [excFuel_success 1 _ _ _ (by exact h1)
    (by exact h2)]
  rfl

/-! ### The claims -/

/-- C1, counterexample: the claim quantifies over every instance the
constructors can produce, but the base `CustomError` constructor does not
enforce the category/status invariant — it accepts category "warn" with
the default status 500. -/
theorem claim_C1_counterexample :
    (CustomError.construct "CustomError" "m"
      { type := some "warn" }).type = "warn" ∧
    (CustomError.construct "CustomError" "m"
      { type := some "warn" }).status = 500 ∧
    ¬ statusInvariant (CustomError.construct "CustomError" "m"
      { type := some "warn" }) := by
  refine ⟨rfl, rfl, ?_⟩
  intro h
  have h' := h.1 rfl
  have hst : (CustomError.construct "CustomError" "m"
      { type := some "warn" }).status = 500 := rfl
  omega

/-- C1, amended: the invariant "warn ⇒ status ∈ [400,499], error ⇒ status
∈ [500,599]" holds for every instance a family constructor produces other
than the neutral fallback (whose name is "CustomError"), for every
subtype instance, and for every `from` result built without overrides
from a value that is not already a `CustomError`; the base constructor
itself does not enforce it. -/
theorem claim_C1_amended :
    (∀ (message : String) (props : CustomErrorProperties) (e : CustomError),
        WarnError.construct message props = some e →
        e.name ≠ "CustomError" → statusInvariant e) ∧
    (∀ (message : String) (props : CustomErrorProperties) (e : CustomError),
        ExceptionError.construct message props = some e →
        e.name ≠ "CustomError" → statusInvariant e) ∧
    (∀ st ∈ warnSubtypes,
      ∀ (message : Option String) (props : CustomErrorPartialProperties)
        (e : CustomError),
        mkWarnSubtype st message props = some e → statusInvariant e) ∧
    (∀ st ∈ exceptionSubtypes,
      ∀ (message : Option String) (props : CustomErrorPartialProperties)
        (e : CustomError),
        mkExceptionSubtype st message props = some e → statusInvariant e) ∧
    (∀ v : Val, v.isCustom = false →
        statusInvariant (CustomError.from v {})) := by
  have hwarn : ∀ (name message : String) (props : CustomErrorProperties)
      (s : Int), 400 ≤ s → s ≤ 499 →
      statusInvariant (WarnError.superRecord name message props s) := by
    intro name message props s h1 h2
    exact ⟨fun _ => ⟨h1, h2⟩,
      fun h => absurd (show ("warn" : String) = "error" from h) (by decide)⟩
  have hexc : ∀ (name message : String) (props : CustomErrorProperties)
      (s : Int), 500 ≤ s → s ≤ 599 →
      statusInvariant (ExceptionError.superRecord name message props s) := by
    intro name message props s h1 h2
    exact ⟨fun h => absurd (show ("error" : String) = "warn" from h)
      (by decide), fun _ => ⟨h1, h2⟩⟩
  refine ⟨?_, ?_, ?_, ?_, ?_⟩
  · intro message props e h hname
    rcases warnConstruct_cases message props with
      ⟨s, _, h1, h2, hc⟩ | ⟨s, _, h1, h2, hc⟩ | ⟨s, _, _, hc⟩
    · rw [hc] at h
      rw [← Option.some.inj h]
      exact hwarn _ _ _ _ h1 h2
    · rw [hc] at h
      rw [← Option.some.inj h]
      exact hexc _ _ _ _ h1 h2
    · rw [hc] at h
      rw [← Option.some.inj h] at hname
      exact absurd rfl hname
  · intro message props e h hname
    rcases excConstruct_cases message props with
      ⟨s, _, h1, h2, hc⟩ | ⟨s, _, h1, h2, hc⟩ | ⟨s, _, _, hc⟩
    · rw [hc] at h
      rw [← Option.some.inj h]
      exact hexc _ _ _ _ h1 h2
    · rw [hc] at h
      rw [← Option.some.inj h]
      exact hwarn _ _ _ _ h1 h2
    · rw [hc] at h
      rw [← Option.some.inj h] at hname
      exact absurd rfl hname
  · intro st hst message props e h
    have hr : 400 ≤ st.status ∧ st.status ≤ 499 := by
      revert hst
      have : ∀ x ∈ warnSubtypes, 400 ≤ x.status ∧ x.status ≤ 499 := by
        decide
      exact this st
    rw [mkWarnSubtype_eq st message props hr.1 hr.2] at h
    rw [← Option.some.inj h]
    exact hwarn _ _ _ _ hr.1 hr.2
  · intro st hst message props e h
    have hr : 500 ≤ st.status ∧ st.status ≤ 599 := by
      revert hst
      have : ∀ x ∈ exceptionSubtypes, 500 ≤ x.status ∧ x.status ≤ 599 := by
        decide
      exact this st
    rw [mkExceptionSubtype_eq st message props hr.1 hr.2] at h
    rw [← Option.some.inj h]
    exact hexc _ _ _ _ hr.1 hr.2
  · intro v hv
    have h500 : (500 : Int) ≤ 500 := le_refl 500
    have h599 : (500 : Int) ≤ 599 := by omega
    match v, hv with
    | .vnative m, _ =>
      exact ⟨fun h => absurd (show ("error" : String) = "warn" from h)
        (by decide), fun _ => ⟨h500, h599⟩⟩
    | .vnull, _ | .vundef, _ | .vbool _, _ | .vint _, _ | .vstr _, _
    | .vobjError _, _ =>
      exact ⟨fun h => absurd (show ("error" : String) = "warn" from h)
        (by decide), fun _ => ⟨h500, h599⟩⟩

/-- C1, witness: a successful `WarnError` construction and a `from` on a
plain string both satisfy the invariant. -/
theorem claim_C1_witness :
    statusInvariant (WarnError.superRecord "WarnError" "x" {} 400) ∧
    statusInvariant (CustomError.from (Val.vstr "x") {}) :=
  ⟨claim_C1_amended.1 "x" {} _ (by decide) (by decide),
   claim_C1_amended.2.2.2.2 (Val.vstr "x") rfl⟩

/-- C2: every successfully constructed Client Family instance (the
construction returned an instance named "WarnError", or any subtype
construction) has a 4xx status and category "warn"; dually for the Server
Family with 5xx and "error" — for every message and properties bag. -/
theorem claim_C2_family_ranges :
    (∀ (message : String) (props : CustomErrorProperties) (e : CustomError),
        WarnError.construct message props = some e → e.name = "WarnError" →
        e.type = "warn" ∧ 400 ≤ e.status ∧ e.status ≤ 499) ∧
    (∀ (message : String) (props : CustomErrorProperties) (e : CustomError),
        ExceptionError.construct message props = some e →
        e.name = "ExceptionError" →
        e.type = "error" ∧ 500 ≤ e.status ∧ e.status ≤ 599) ∧
    (∀ st ∈ warnSubtypes,
      ∀ (message : Option String) (props : CustomErrorPartialProperties)
        (e : CustomError),
        mkWarnSubtype st message props = some e →
        e.name = st.name ∧ e.type = "warn" ∧
          400 ≤ e.status ∧ e.status ≤ 499) ∧
    (∀ st ∈ exceptionSubtypes,
      ∀ (message : Option String) (props : CustomErrorPartialProperties)
        (e : CustomError),
        mkExceptionSubtype st message props = some e →
        e.name = st.name ∧ e.type = "error" ∧
          500 ≤ e.status ∧ e.status ≤ 599) := by
  refine ⟨?_, ?_, ?_, ?_⟩
  · intro message props e h hname
    rcases warnConstruct_cases message props with
      ⟨s, _, h1, h2, hc⟩ | ⟨s, _, h1, h2, hc⟩ | ⟨s, _, _, hc⟩
    · rw [hc] at h
      rw [← Option.some.inj h]
      exact ⟨rfl, h1, h2⟩
    · rw [hc] at h
      rw [← Option.some.inj h] at hname
      exact absurd (show ("ExceptionError" : String) = "WarnError"
        from hname) (by decide)
    · rw [hc] at h
      rw [← Option.some.inj h] at hname
      exact absurd (show ("CustomError" : String) = "WarnError" from hname)
        (by decide)
  · intro message props e h hname
    rcases excConstruct_cases message props with
      ⟨s, _, h1, h2, hc⟩ | ⟨s, _, h1, h2, hc⟩ | ⟨s, _, _, hc⟩
    · rw [hc] at h
      rw [← Option.some.inj h]
      exact ⟨rfl, h1, h2⟩
    · rw [hc] at h
      rw [← Option.some.inj h] at hname
      exact absurd (show ("WarnError" : String) = "ExceptionError"
        from hname) (by decide)
    · rw [hc] at h
      rw [← Option.some.inj h] at hname
      exact absurd (show ("CustomError" : String) = "ExceptionError"
        from hname) (by decide)
  · intro st hst message props e h
    have hr : 400 ≤ st.status ∧ st.status ≤ 499 := by
      revert hst
      have : ∀ x ∈ warnSubtypes, 400 ≤ x.status ∧ x.status ≤ 499 := by
        decide
      exact this st
    rw [mkWarnSubtype_eq st message props hr.1 hr.2] at h
    rw [← Option.some.inj h]
    exact ⟨rfl, rfl, hr.1, hr.2⟩
  · intro st hst message props e h
    have hr : 500 ≤ st.status ∧ st.status ≤ 599 := by
      revert hst
      have : ∀ x ∈ exceptionSubtypes, 500 ≤ x.status ∧ x.status ≤ 599 := by
        decide
      exact this st
    rw [mkExceptionSubtype_eq st message props hr.1 hr.2] at h
    rw [← Option.some.inj h]
    exact ⟨rfl, rfl, hr.1, hr.2⟩

/-- C2, witness: a concrete `WarnError` and a concrete `TimeoutError`. -/
theorem claim_C2_witness :
    ((WarnError.superRecord "WarnError" "x" {} 400).type = "warn" ∧
      400 ≤ (WarnError.superRecord "WarnError" "x" {} 400).status ∧
      (WarnError.superRecord "WarnError" "x" {} 400).status ≤ 499) ∧
    ((ExceptionError.superRecord "TimeoutError" "Tempo limite excedido"
        { code := some "TIMEOUT_ERROR", status := some 504 } 504).name =
          "TimeoutError" ∧
      (ExceptionError.superRecord "TimeoutError" "Tempo limite excedido"
        { code := some "TIMEOUT_ERROR", status := some 504 } 504).type =
          "error" ∧
      500 ≤ (ExceptionError.superRecord "TimeoutError"
        "Tempo limite excedido"
        { code := some "TIMEOUT_ERROR", status := some 504 } 504).status ∧
      (ExceptionError.superRecord "TimeoutError" "Tempo limite excedido"
        { code := some "TIMEOUT_ERROR", status := some 504 } 504).status ≤
          599) :=
  ⟨claim_C2_family_ranges.1 "x" {} _ (by decide) rfl,
   claim_C2_family_ranges.2.2.2 ⟨"TimeoutError", "TIMEOUT_ERROR", 504,
      "Tempo limite excedido"⟩ (by decide) none {} _ (by decide)⟩

/-- C3: a Client Family construction with a 5xx status produces exactly
the Server Family instance built from the same message and properties
(category "error", the supplied status); dually a Server Family
construction with a 4xx status produces the Client Family instance; a
status outside both ranges produces the neutral base type carrying the
supplied properties. -/
theorem claim_C3_redirection :
    ∀ (message : String) (props : CustomErrorProperties) (s : Int),
      props.status = some s →
      (500 ≤ s → s ≤ 599 →
        WarnError.construct message props =
          ExceptionError.construct message props ∧
        WarnError.construct message props = some
          { name := "ExceptionError"
            message := normalizeErrorMessage (Val.vstr message)
            code := props.code.getD "ERROR"
            type := "error"
            status := s
            userMessage := some (props.userMessage.getD message)
            data := props.data
            cause := props.cause }) ∧
      (400 ≤ s → s ≤ 499 →
        ExceptionError.construct message props =
          WarnError.construct message props ∧
        ExceptionError.construct message props = some
          { name := "WarnError"
            message := normalizeErrorMessage (Val.vstr message)
            code := props.code.getD "WARN"
            type := "warn"
            status := s
            userMessage := some (props.userMessage.getD message)
            data := props.data
            cause := props.cause }) ∧
      (s < 400 ∨ s > 599 →
        WarnError.construct message props =
          some (CustomError.construct "CustomError" message props) ∧
        ExceptionError.construct message props =
          some (CustomError.construct "CustomError" message props) ∧
        (CustomError.construct "CustomError" message props).name =
          "CustomError" ∧
        (CustomError.construct "CustomError" message props).status =
          props.status.getD 500 ∧
        (CustomError.construct "CustomError" message props).data =
          props.data) := by
  intro message props s hs
  refine ⟨?_, ?_, ?_⟩
  · intro h1 h2
    have hd : props.status.getD 500 = s := by rw [hs]; rfl
    have hw : WarnError.construct message props =
        some (ExceptionError.superRecord "ExceptionError" message props s) :=
      warnFuel_redirect 0 _ _ _ s hs h1 h2
    have he : ExceptionError.construct message props =
        some (ExceptionError.superRecord "ExceptionError" message props s) := by
      unfold ExceptionError.construct
      rw [excFuel_success 1 _ _ _ (by omega) (by omega),
        hd]
    rw [hw, he]
    exact ⟨rfl, by rw [excSuperRecord_eq]⟩
  · intro h1 h2
    have hd : props.status.getD 400 = s := by rw [hs]; rfl
    have he : ExceptionError.construct message props =
        some (WarnError.superRecord "WarnError" message props s) :=
      excFuel_redirect 0 _ _ _ s hs h1 h2
    have hw : WarnError.construct message props =
        some (WarnError.superRecord "WarnError" message props s) := by
      unfold WarnError.construct
      rw [warnFuel_success 1 _ _ _ (by omega) (by omega), hd]
    rw [hw, he]
    exact ⟨rfl, by rw [warnSuperRecord_eq]⟩
  · intro h
    refine ⟨warnFuel_fallback 1 _ _ _ s hs h,
      excFuel_fallback 1 _ _ _ s hs h, rfl, ?_, rfl⟩
    rfl

/-- C3, witness: status 500 on the Client Family, 404 on the Server
Family, 200 on both. -/
theorem claim_C3_witness :
    (WarnError.construct "m" { status := some 500 } =
      ExceptionError.construct "m" { status := some 500 }) ∧
    (ExceptionError.construct "m" { status := some 404 } =
      WarnError.construct "m" { status := some 404 }) ∧
    (WarnError.construct "m" { status := some 200 } =
      some (CustomError.construct "CustomError" "m"
        { status := some 200 })) :=
  ⟨((claim_C3_redirection "m" { status := some 500 } 500 rfl).1
      (by omega) (by omega)).1,
   ((claim_C3_redirection "m" { status := some 404 } 404 rfl).2.1
      (by omega) (by omega)).1,
   ((claim_C3_redirection "m" { status := some 200 } 200 rfl).2.2
      (by omega)).1⟩

/-- C4: the mutually recursive construction paths terminate — two
constructor entries (fuel 2, one possible redirection) already decide the
result for every status: more fuel never changes it, and the result
always exists. -/
theorem claim_C4_termination :
    ∀ (fuel : Nat) (message : String) (props : CustomErrorProperties),
      (WarnError.constructFuel (fuel + 2) "WarnError" message props =
          WarnError.construct message props ∧
        (WarnError.construct message props).isSome) ∧
      (ExceptionError.constructFuel (fuel + 2) "ExceptionError" message
          props = ExceptionError.construct message props ∧
        (ExceptionError.construct message props).isSome) :=
  fun fuel message props =>
    ⟨warnFuel_stable fuel "WarnError" message props,
     excFuel_stable fuel "ExceptionError" message props⟩

/-- The placeholder is a fixed point of the normalizer. -/
theorem normalize_placeholder :
    normalizeErrorMessage (Val.vstr "Erro desconhecido") =
      "Erro desconhecido" := by decide

/-- A leading space is stripped by `trim`. -/
theorem trimJS_space_left (s : String) : trimJS (" " ++ s) = trimJS s := rfl

/-- A trailing space is stripped by `trim`. -/
theorem trimJS_space_right (s : String) : trimJS (s ++ " ") = trimJS s := by
  have h : (s ++ " ").toList = s.toList ++ [' '] := by
    show (s ++ " ").data = s.data ++ [' ']
    rw [String.data_append]
  simp only [trimJS, h]
  rw [List.dropWhile_append]
  split
  next hcond =>
    have h0 : s.toList.dropWhile (fun c => jsIsWS c) = [] := by
      cases hdW : s.toList.dropWhile (fun c => jsIsWS c) with
      | nil => rfl
      | cons a t => rw [hdW] at hcond; simp at hcond
    rw [h0]
    rfl
  next hcond =>
    rw [List.reverse_append]
    rfl

/-- C5, counterexample: the normalizer's placeholder for `null` and
`undefined` is the Portuguese string "Erro desconhecido", not the literal
"Unknown error" the claim states. -/
theorem claim_C5_counterexample :
    normalizeErrorMessage Val.vnull = "Erro desconhecido" ∧
    normalizeErrorMessage Val.vnull ≠ "Unknown error" :=
  ⟨rfl, by decide⟩

/-- C5, amended: the normalizer is total, returns the constant placeholder
"Erro desconhecido" for `null` and `undefined` (so the two agree),
converts any other value to its string representation and trims, collapses
whitespace and NFC-normalizes it — leading/trailing spaces never change
the result, `"  a   b  "` becomes `"a b"`, the combining form of "José"
normalizes equal to the precomposed form, and `42` becomes `"42"`. -/
theorem claim_C5_amended :
    (∀ v : Val, v.isNullish = true →
        normalizeErrorMessage v = "Erro desconhecido") ∧
    normalizeErrorMessage Val.vnull = normalizeErrorMessage Val.vundef ∧
    (∀ v : Val, v.isNullish = false →
        normalizeErrorMessage v =
          unicodeNFC (collapseWS (trimJS (jsToString v)))) ∧
    (∀ s : String,
        normalizeErrorMessage (Val.vstr (" " ++ s)) =
          normalizeErrorMessage (Val.vstr s)) ∧
    (∀ s : String,
        normalizeErrorMessage (Val.vstr (s ++ " ")) =
          normalizeErrorMessage (Val.vstr s)) ∧
    normalizeErrorMessage (Val.vstr "  a   b  ") = "a b" ∧
    normalizeErrorMessage (Val.vstr "Jose\u0301") =
      normalizeErrorMessage (Val.vstr "Jos\u00e9") ∧
    normalizeErrorMessage (Val.vint 42) = "42" := by
  refine ⟨?_, rfl, ?_, ?_, ?_, by decide, by decide, by decide⟩
  · intro v hv
    match v, hv with
    | .vnull, _ => rfl
    | .vundef, _ => rfl
    | .vbool b, h => exact nomatch h
    | .vint n, h => exact nomatch h
    | .vstr s, h => exact nomatch h
    | .vnative m, h => exact nomatch h
    | .vobjError w, h => exact nomatch h
    | .vcustomTagged a b c d f g i j, h => exact nomatch h
  · intro v hv
    match v, hv with
    | .vnull, h => exact nomatch h
    | .vundef, h => exact nomatch h
    | .vbool b, _ => rfl
    | .vint n, _ => rfl
    | .vstr s, _ => rfl
    | .vnative m, _ => rfl
    | .vobjError w, _ => rfl
    | .vcustomTagged a b c d f g i j, _ => rfl
  · intro s
    show unicodeNFC (collapseWS (trimJS (" " ++ s))) =
      unicodeNFC (collapseWS (trimJS s))
    rw [trimJS_space_left]
  · intro s
    show unicodeNFC (collapseWS (trimJS (s ++ " "))) =
      unicodeNFC (collapseWS (trimJS s))
    rw [trimJS_space_right]

/-- C5, witness: the nullish branch instantiated at `undefined`. -/
theorem claim_C5_witness :
    normalizeErrorMessage Val.vundef = "Erro desconhecido" :=
  claim_C5_amended.1 Val.vundef rfl

/-- C6, counterexample: wrapping a plain string yields the Portuguese
placeholder "Erro desconhecido", not the literal "Unknown error" the
claim states. -/
theorem claim_C6_counterexample :
    (CustomError.from (Val.vstr "plain string") {}).message =
      "Erro desconhecido" ∧
    (CustomError.from (Val.vstr "plain string") {}).message ≠
      "Unknown error" ∧
    (CustomError.from (Val.vstr "plain string") {}).userMessage ≠
      some "Unknown error" := by
  refine ⟨normalize_placeholder, ?_, by decide⟩
  rw [show (CustomError.from (Val.vstr "plain string") {}).message =
    "Erro desconhecido" from normalize_placeholder]
  decide

/-- C6, amended: wrapping a native failure keeps its message as
`userMessage`, defaults `code` to "SYSTEM_ERROR", category to "error",
status to 500 and `cause` to the original value, each unless overridden;
wrapping any other non-`CustomError` value produces the placeholder
message "Erro desconhecido", the placeholder as `userMessage`,
`data = \x7b error: value \x7d`, and the same defaults, each unless
overridden. -/
theorem claim_C6_amended :
    (∀ (m : String) (override : CustomErrorProperties),
        (CustomError.from (Val.vnative m) override).message =
          normalizeErrorMessage
            (Val.vstr (if m = "" then "Erro desconhecido" else m)) ∧
        (CustomError.from (Val.vnative m) override).userMessage =
          some (override.userMessage.getD m) ∧
        (CustomError.from (Val.vnative m) override).code =
          override.code.getD "SYSTEM_ERROR" ∧
        (CustomError.from (Val.vnative m) override).type =
          override.type.getD "error" ∧
        (CustomError.from (Val.vnative m) override).status =
          override.status.getD 500 ∧
        (CustomError.from (Val.vnative m) override).data =
          override.data ∧
        (CustomError.from (Val.vnative m) override).cause =
          (if override.cause.isNullish then Val.vnative m
           else override.cause)) ∧
    (∀ (v : Val) (override : CustomErrorProperties),
        v.isCustom = false → v.isNativeError = false →
        (CustomError.from v override).message = "Erro desconhecido" ∧
        (CustomError.from v override).userMessage =
          some (override.userMessage.getD "Erro desconhecido") ∧
        (CustomError.from v override).code =
          override.code.getD "SYSTEM_ERROR" ∧
        (CustomError.from v override).type =
          override.type.getD "error" ∧
        (CustomError.from v override).status =
          override.status.getD 500 ∧
        (CustomError.from v override).data =
          (if override.data.isNullish then Val.vobjError v
           else override.data) ∧
        (CustomError.from v override).cause = override.cause) := by
  refine ⟨fun m override => ⟨rfl, rfl, rfl, rfl, rfl, rfl, rfl⟩, ?_⟩
  intro v override hc hn
  match v, hc, hn with
  | .vnull, _, _ =>
    exact ⟨normalize_placeholder, rfl, rfl, rfl, rfl, rfl, rfl⟩
  | .vundef, _, _ =>
    exact ⟨normalize_placeholder, rfl, rfl, rfl, rfl, rfl, rfl⟩
  | .vbool b, _, _ =>
    exact ⟨normalize_placeholder, rfl, rfl, rfl, rfl, rfl, rfl⟩
  | .vint n, _, _ =>
    exact ⟨normalize_placeholder, rfl, rfl, rfl, rfl, rfl, rfl⟩
  | .vstr s, _, _ =>
    exact ⟨normalize_placeholder, rfl, rfl, rfl, rfl, rfl, rfl⟩
  | .vobjError w, _, _ =>
    exact ⟨normalize_placeholder, rfl, rfl, rfl, rfl, rfl, rfl⟩
  | .vnative m, _, h => exact nomatch h

/-- C6, witness: `from` on a native failure "boom" and on the plain string
"plain string", no overrides. -/
theorem claim_C6_witness :
    ((CustomError.from (Val.vnative "boom") {}).userMessage = some "boom" ∧
      (CustomError.from (Val.vnative "boom") {}).code = "SYSTEM_ERROR" ∧
      (CustomError.from (Val.vnative "boom") {}).cause =
        Val.vnative "boom") ∧
    ((CustomError.from (Val.vstr "plain string") {}).message =
        "Erro desconhecido" ∧
      (CustomError.from (Val.vstr "plain string") {}).data =
        Val.vobjError (Val.vstr "plain string")) := by
  have h1 := claim_C6_amended.1 "boom" {}
  have h2 := claim_C6_amended.2 (Val.vstr "plain string") {} rfl rfl
  exact ⟨⟨h1.2.1, h1.2.2.1, h1.2.2.2.2.2.2⟩, ⟨h2.1, h2.2.2.2.2.2.1⟩⟩

/-- C7: `from` is idempotent — a value that is already a `CustomError` is
returned unchanged (whatever the override), hence wrapping twice equals
wrapping once, for every input. -/
theorem claim_C7_from_idempotent :
    (∀ (e : CustomError) (override : CustomErrorProperties),
        CustomError.from e.toVal override = e) ∧
    (∀ (v : Val) (o1 o2 : CustomErrorProperties),
        CustomError.from (CustomError.from v o1).toVal o2 =
          CustomError.from v o1) := by
  have h1 : ∀ (e : CustomError) (override : CustomErrorProperties),
      CustomError.from e.toVal override = e := fun e _ => rfl
  exact ⟨h1, fun v o1 o2 => h1 (CustomError.from v o1) o2⟩

/-- C8: `toHttp` returns exactly the status and the
code/category/message/data body, with `userMessage ?? message` and
`data ?? null`; shaping a `NotFoundWarn("Resource X")` yields status 404
with code "NOT_FOUND_WARN", category "warn", message "Resource X" and
null data. -/
theorem claim_C8_toHttp_shape :
    (∀ e : CustomError,
        e.toHttp =
          { status := e.status
            body :=
              { code := e.code
                type := e.type
                message := e.userMessage.getD e.message
                data := if e.data.isNullish then Val.vnull
                        else e.data } }) ∧
    mkWarnSubtype notFoundWarnSpec (some "Resource X") {} =
      some
        { name := "NotFoundWarn"
          message := "Resource X"
          code := "NOT_FOUND_WARN"
          type := "warn"
          status := 404
          userMessage := some "Resource X"
          data := Val.vundef
          cause := Val.vundef } ∧
    (mkWarnSubtype notFoundWarnSpec (some "Resource X") {}).map
        CustomError.toHttp =
      some
        { status := 404
          body :=
            { code := "NOT_FOUND_WARN"
              type := "warn"
              message := "Resource X"
              data := Val.vnull } } :=
  ⟨fun _ => rfl, by decide, by decide⟩

/-- C9: every instance any constructor path produces carries a defined
(`some`) `userMessage`, and `toHttp`'s `userMessage ?? message` fallback
never fires: the body message is that `userMessage`. -/
theorem claim_C9_userMessage_total :
    (∀ (name message : String) (props : CustomErrorProperties),
        ∃ u, (CustomError.construct name message props).userMessage =
            some u ∧
          (CustomError.construct name message props).toHttp.body.message =
            u) ∧
    (∀ (fuel : Nat) (name message : String)
        (props : CustomErrorProperties) (e : CustomError),
        WarnError.constructFuel fuel name message props = some e →
        ∃ u, e.userMessage = some u ∧ e.toHttp.body.message = u) ∧
    (∀ (fuel : Nat) (name message : String)
        (props : CustomErrorProperties) (e : CustomError),
        ExceptionError.constructFuel fuel name message props = some e →
        ∃ u, e.userMessage = some u ∧ e.toHttp.body.message = u) ∧
    (∀ (v : Val) (override : CustomErrorProperties), v.isCustom = false →
        ∃ u, (CustomError.from v override).userMessage = some u ∧
          (CustomError.from v override).toHttp.body.message = u) := by
  have hc : ∀ (name message : String) (props : CustomErrorProperties),
      ∃ u, (CustomError.construct name message props).userMessage =
          some u ∧
        (CustomError.construct name message props).toHttp.body.message =
          u :=
    fun name message props =>
      ⟨props.userMessage.getD (normalizeErrorMessage (Val.vstr message)),
        rfl, rfl⟩
  refine ⟨hc, ?_, ?_, ?_⟩
  · intro fuel name message props e h
    obtain ⟨nm, m, p, rfl⟩ := (constructFuel_shape fuel).1 _ _ _ _ h
    exact hc nm m p
  · intro fuel name message props e h
    obtain ⟨nm, m, p, rfl⟩ := (constructFuel_shape fuel).2 _ _ _ _ h
    exact hc nm m p
  · intro v override hv
    match v, hv with
    | .vnull, _ => exact hc _ _ _
    | .vundef, _ => exact hc _ _ _
    | .vbool b, _ => exact hc _ _ _
    | .vint n, _ => exact hc _ _ _
    | .vstr s, _ => exact hc _ _ _
    | .vnative m, _ => exact hc _ _ _
    | .vobjError w, _ => exact hc _ _ _

/-- C9, witness: a wrapped plain string has a defined `userMessage` equal
to the shaped body message. -/
theorem claim_C9_witness :
    ∃ u, (CustomError.from (Val.vstr "x") {}).userMessage = some u ∧
      (CustomError.from (Val.vstr "x") {}).toHttp.body.message = u :=
  claim_C9_userMessage_total.2.2.2 (Val.vstr "x") {} rfl

/-- C10: a family constructor called without an explicit `userMessage`
stores the raw input message as `userMessage` and the normalized form as
`message`; on whitespace-redundant input the two fields differ. -/
theorem claim_C10_userMessage_raw :
    (∀ (name message : String) (props : CustomErrorProperties),
        props.userMessage = none →
        400 ≤ props.status.getD 400 → props.status.getD 400 ≤ 499 →
        WarnError.constructFuel 2 name message props =
          some (WarnError.superRecord name message props
            (props.status.getD 400)) ∧
        (WarnError.superRecord name message props
            (props.status.getD 400)).userMessage = some message ∧
        (WarnError.superRecord name message props
            (props.status.getD 400)).message =
          normalizeErrorMessage (Val.vstr message)) ∧
    (∀ (name message : String) (props : CustomErrorProperties),
        props.userMessage = none →
        500 ≤ props.status.getD 500 → props.status.getD 500 ≤ 599 →
        ExceptionError.constructFuel 2 name message props =
          some (ExceptionError.superRecord name message props
            (props.status.getD 500)) ∧
        (ExceptionError.superRecord name message props
            (props.status.getD 500)).userMessage = some message ∧
        (ExceptionError.superRecord name message props
            (props.status.getD 500)).message =
          normalizeErrorMessage (Val.vstr message)) ∧
    (∀ e : CustomError,
        WarnError.construct "  a   b  " {} = some e →
        e.userMessage = some "  a   b  " ∧ e.message = "a b" ∧
        some e.message ≠ e.userMessage) := by
  refine ⟨?_, ?_, ?_⟩
  · intro name message props hum h1 h2
    refine ⟨warnFuel_success 1 _ _ _ h1 h2, ?_, rfl⟩
    rw [warnSuperRecord_eq]
    simp [hum]
  · intro name message props hum h1 h2
    refine ⟨excFuel_success 1 _ _ _ h1 h2, ?_, rfl⟩
    rw [excSuperRecord_eq]
    simp [hum]
  · intro e h
    have hE : WarnError.construct "  a   b  " {} =
        some
          { name := "WarnError"
            message := "a b"
            code := "WARN"
            type := "warn"
            status := 400
            userMessage := some "  a   b  "
            data := Val.vundef
            cause := Val.vundef } := by decide
    rw [hE] at h
    rw [← Option.some.inj h]
    exact ⟨rfl, rfl, by decide⟩

/-- C10, witness: the Client Family constructor on `"  a   b  "` with no
properties stores the raw message as `userMessage` and "a b" as
`message`. -/
theorem claim_C10_witness :
    WarnError.constructFuel 2 "WarnError" "  a   b  " {} =
      some (WarnError.superRecord "WarnError" "  a   b  " {} 400) ∧
    (WarnError.superRecord "WarnError" "  a   b  " {} 400).userMessage =
      some "  a   b  " ∧
    (WarnError.superRecord "WarnError" "  a   b  " {} 400).message =
      normalizeErrorMessage (Val.vstr "  a   b  ") :=
  claim_C10_userMessage_raw.1 "WarnError" "  a   b  " {} rfl (by decide)
    (by decide)

end LamersError
